import Mathlib

/-!
Shallow embedding of `src/features/lightspeed/playbookGeneration.ts` (the
Ansible Lightspeed playbook-generation wizard panel) and of the repository's
CI bootstrap shell script, together with theorems settling the frozen claims
about them.

The TypeScript module keeps two module-level variables (`wizardId`,
`currentPage`), registers a webview message handler that switches over five
message commands, and talks to a remote generation API.  We model the module
state explicitly, the observable side effects as a trace of `Effect`s, and
the remote call's result as a parameter (`GenOutcome`), since the API object
lives outside this file's source.
-/

namespace PlaybookGen

/-- Wizard feedback action kinds, from `WizardGenerationActionType`
(imported by the source from `definitions/lightspeed`; only the four
constructors used in this file are modelled). -/
inductive WizardGenerationActionType where
  | OPEN
  | CLOSE_CANCEL
  | CLOSE_ACCEPT
  | TRANSITION
deriving DecidableEq

/-- An `IError` record from `utils/errors`: an error result of the remote
generation call, with optional `message` and `detail` fields. -/
structure IError where
  message : Option String
  detail : Option String
deriving DecidableEq

/-- A successful `PlaybookGenerationResponseParams` payload. -/
structure GenResponse where
  playbook : String
  outline : String
  generationId : String
deriving DecidableEq

/-- Result of `apiInstance.playbookGenerationRequest`: a success payload,
an `IError` result, or a thrown exception carrying a message. -/
inductive GenOutcome where
  | success (resp : GenResponse)
  | failure (e : IError)
  | thrown (msg : String)
deriving DecidableEq

/-- The argument record passed to `apiInstance.playbookGenerationRequest`
by `generatePlaybook` (`text`, `outline`, `createOutline`, `generationId`,
`wizardId`). -/
structure GenRequest where
  text : String
  outline : Option String
  createOutline : Bool
  generationId : String
  wizardId : Option String
deriving DecidableEq

/-- Observable side effects of the module, in program order. -/
inductive Effect where
  /-- `panel.webview.postMessage \x7b command \x7d` for payload-free posts
  (`startSpinner`, `stopSpinner`, `init`, `resetOutline`). -/
  | postMessage (cmd : String)
  /-- `postMessage \x7b command: "outline", outline: ... \x7d`. -/
  | postOutline (playbook : Option String) (outline : Option String) (generationId : String)
  /-- `postMessage \x7b command: "playbook", playbook: ... \x7d` (the `html`
  field is the constant `undefined` and is omitted). -/
  | postPlaybook (playbook : Option String) (generationId : String) (outline : Option String)
  /-- `lightSpeedManager.apiInstance.feedbackRequest` with the
  `playbookGenerationAction` payload fields. -/
  | feedback (action : WizardGenerationActionType) (wizardId : String)
      (fromPage : Option Nat) (toPage : Option Nat)
  /-- `vscode.window.showErrorMessage msg`. -/
  | showError (msg : String)
  /-- `vscode.window.showInformationMessage` with a modal confirmation. -/
  | showInfoModal (msg : String)
  /-- The remote `playbookGenerationRequest` is issued. -/
  | remoteCall (req : GenRequest)
  /-- `openNewPlaybookEditor playbook`: open a new editor with the content. -/
  | openEditorWith (playbook : Option String)
  /-- `contentMatch` first half: set `contentMatchesProvider.suggestionDetails`. -/
  | setSuggestionDetails (generationId : String) (playbook : Option String)
  /-- `contentMatch` second half: execute `LIGHTSPEED_FETCH_TRAINING_MATCHES`. -/
  | fetchTrainingMatches
  /-- The one-click trial provider displayed its popup for an error. -/
  | trialPopup
  /-- `vscode.window.createWebviewPanel` created the wizard panel. -/
  | createPanel
deriving DecidableEq

/-- The module-level mutable state of the file plus whether the current
wizard panel is live (not yet disposed). -/
structure SysState where
  wizardId : Option String
  currentPage : Option Nat
  panelLive : Bool
deriving DecidableEq

/-- Initial module state: both variables are declared without initializer
(`undefined`) and no panel exists. -/
def initState : SysState := { wizardId := none, currentPage := none, panelLive := false }

/-- JavaScript truthiness of an optional string field (`undefined` and the
empty string are falsy, every other string truthy), as used by
`!message.outline` and `!playbook`. -/
def truthy : Option String → Bool
  | none => false
  | some s => !s.isEmpty

/-- A webview message as destructured by the handler: `command` plus the
fields the five cases read. -/
structure Message where
  command : String
  text : String
  outline : Option String
  playbook : Option String
  generationId : String
  toPage : Option Nat
deriving DecidableEq

/-- Environment of externally determined results for one handler run:
the remote call's outcome, whether `oneClickTrialProvider.showPopup`
displayed (and so handled) the error, whether the user confirmed the
`resetOutline` dialog with "Ok", and whether `feedbackRequest` threw
(carrying the thrown error's message). -/
structure Env where
  genOutcome : GenOutcome
  trialPopupShown : Bool
  resetConfirmed : Bool
  feedbackThrows : Option String
deriving DecidableEq

/-- `sendActionEvent action toPage`: when `wizardId` is set, remember
`fromPage := currentPage`, assign `currentPage := toPage`, and issue one
`feedbackRequest`; a throw from the request is caught and shown as an
error message.  When `wizardId` is unset, do nothing. -/
def sendActionEvent (action : WizardGenerationActionType) (toPage : Option Nat)
    (feedbackThrows : Option String) (s : SysState) : SysState × List Effect :=
  match s.wizardId with
  | some wid =>
    let fromPage := s.currentPage
    let s1 := { s with currentPage := toPage }
    (s1, Effect.feedback action wid fromPage toPage ::
      (match feedbackThrows with
       | some m => [Effect.showError m]
       | none => []))
  | none => (s, [])

/-- The `panel.onDidDispose` callback plus the disposal itself: send a
`CLOSE_CANCEL` action event, then clear `wizardId`; the panel is no longer
live afterwards. -/
def disposeHandler (feedbackThrows : Option String) (s : SysState) : SysState × List Effect :=
  let (s1, effs) := sendActionEvent WizardGenerationActionType.CLOSE_CANCEL none feedbackThrows s
  ({ s1 with wizardId := none, panelLive := false }, effs)

/-- `UNKNOWN_ERROR` constant imported from `utils/errors`; its exact text is
outside this fragment and no claim depends on it. -/
def UNKNOWN_ERROR : String := "An unknown error occurred."

/-- The notification string built for an error response:
`` `$\x7bresponse.message ?? UNKNOWN_ERROR\x7d $\x7bresponse.detail ?? ""\x7d` ``. -/
def errorMessageString (e : IError) : String :=
  (e.message.getD UNKNOWN_ERROR) ++ " " ++ (e.detail.getD "")

/-- The request record `generatePlaybook` builds:
`createOutline := outline === undefined`. -/
def mkGenRequest (text : String) (outline : Option String) (generationId : String)
    (wid : Option String) : GenRequest :=
  { text := text, outline := outline, createOutline := outline.isNone,
    generationId := generationId, wizardId := wid }

/-- Effects of `generatePlaybook`'s `try` block up to the point where the
remote call is awaited: post `startSpinner`, issue the request. -/
def generatePlaybookStart (req : GenRequest) : List Effect :=
  [Effect.postMessage "startSpinner", Effect.remoteCall req]

/-- Effect of `generatePlaybook`'s `finally` block: post `stopSpinner`.
It runs for every outcome, including a thrown exception. -/
def generatePlaybookFinish : List Effect :=
  [Effect.postMessage "stopSpinner"]

/-- `generatePlaybook`: full effect trace (start, remote call, then the
`finally` post) together with the propagated outcome — the response is
returned on success or error result, and a thrown exception propagates
after the `finally` block runs. -/
def generatePlaybook (req : GenRequest) (outcome : GenOutcome) :
    List Effect × GenOutcome :=
  (generatePlaybookStart req ++ generatePlaybookFinish, outcome)

/-- The `.then` continuation of the `outline` case (run after the
non-awaited `generatePlaybook` resolves): post the outline on success;
on an error result, let the one-click trial popup handle it, or show the
formatted error string when it does not.  A rejected promise has no
handler attached, so a thrown exception produces no effect here. -/
def outlineThen (trialPopupShown : Bool) (outcome : GenOutcome) : List Effect :=
  match outcome with
  | GenOutcome.success r =>
    [Effect.postOutline (some r.playbook) (some r.outline) r.generationId]
  | GenOutcome.failure e =>
    if trialPopupShown then [Effect.trialPopup]
    else [Effect.showError (errorMessageString e)]
  | GenOutcome.thrown _ => []

/-- Effects of the `generateCode` case when `playbook` is falsy: await
`generatePlaybook`; on a throw show the caught message and break, on an
error result show the formatted error string and break, on success post the
`playbook` message and run `contentMatch`. -/
def handleGenerateCodeGen (m : Message) (env : Env) (wid : Option String) : List Effect :=
  let req := mkGenRequest m.text m.outline m.generationId wid
  let (genEffs, outcome) := generatePlaybook req env.genOutcome
  match outcome with
  | GenOutcome.thrown msg => genEffs ++ [Effect.showError msg]
  | GenOutcome.failure e => genEffs ++ [Effect.showError (errorMessageString e)]
  | GenOutcome.success r =>
    genEffs ++ [Effect.postPlaybook (some r.playbook) r.generationId m.outline,
      Effect.setSuggestionDetails r.generationId (some r.playbook),
      Effect.fetchTrainingMatches]

/-- Effects of the whole `generateCode` case: generate when the message's
`playbook` is falsy, otherwise post the message's own playbook directly;
`contentMatch` runs in both completing paths. -/
def handleGenerateCode (m : Message) (env : Env) (wid : Option String) : List Effect :=
  if !truthy m.playbook then
    handleGenerateCodeGen m env wid
  else
    [Effect.postPlaybook m.playbook m.generationId m.outline,
     Effect.setSuggestionDetails m.generationId m.playbook,
     Effect.fetchTrainingMatches]

/-- Result of one run of the webview message handler: the new module
state, the effects performed before the handler returned, and the
generation request (if any) still in flight when it returned. -/
structure HandlerResult where
  state : SysState
  effects : List Effect
  pending : Option GenRequest
deriving DecidableEq

/-- The `panel.webview.onDidReceiveMessage` callback: a switch over the
five commands `outline`, `generateCode`, `transition`, `openEditor`,
`resetOutline`; any other command matches no case and does nothing.
In the `outline` case with a falsy `message.outline` the generation
promise is not awaited (`generatePlaybook(...).then(...)`): the handler
returns with the request pending and `outlineThen` runs later.  The
`openEditor` case calls `panel.dispose()`, which fires the disposal
callback. -/
def handleMessage (m : Message) (env : Env) (s : SysState) : HandlerResult :=
  if m.command = "outline" then
    if !truthy m.outline then
      let req := mkGenRequest m.text none m.generationId s.wizardId
      { state := s, effects := generatePlaybookStart req, pending := some req }
    else
      { state := s,
        effects := [Effect.postOutline m.playbook m.outline m.generationId],
        pending := none }
  else if m.command = "generateCode" then
    { state := s, effects := handleGenerateCode m env s.wizardId, pending := none }
  else if m.command = "transition" then
    let (s1, effs) := sendActionEvent WizardGenerationActionType.TRANSITION m.toPage
      env.feedbackThrows s
    { state := s1, effects := effs, pending := none }
  else if m.command = "openEditor" then
    let (s1, effs1) := sendActionEvent WizardGenerationActionType.CLOSE_ACCEPT none
      env.feedbackThrows s
    let s2 := { s1 with wizardId := none }
    let (s3, effs2) := disposeHandler env.feedbackThrows s2
    { state := s3,
      effects := Effect.openEditorWith m.playbook :: (effs1 ++ effs2),
      pending := none }
  else if m.command = "resetOutline" then
    { state := s,
      effects := Effect.showInfoModal "Are you sure?" ::
        (if env.resetConfirmed then [Effect.postMessage "resetOutline"] else []),
      pending := none }
  else
    { state := s, effects := [], pending := none }

/-- `showPlaybookGenerationPage`: an unauthenticated user only gets an
error message; otherwise create the panel, register the callbacks, assign
a fresh `wizardId` (the generated UUID is a parameter here), post `init`,
and send the `OPEN` action event with `toPage := 1`. -/
def showPlaybookGenerationPage (isAuthenticated : Bool) (uuid : String)
    (feedbackThrows : Option String) (s : SysState) : SysState × List Effect :=
  if !isAuthenticated then
    (s, [Effect.showError "Log in to Ansible Lightspeed to use this feature."])
  else
    let s1 := { s with panelLive := true, wizardId := some uuid }
    let (s2, effs) := sendActionEvent WizardGenerationActionType.OPEN (some 1)
      feedbackThrows s1
    (s2, Effect.createPanel :: Effect.postMessage "init" :: effs)

/-- Events driving one wizard session: a call to
`showPlaybookGenerationPage`, a webview message delivered to the live
panel, the deferred completion of a non-awaited outline generation, and
the disposal of the panel (user closes it). -/
inductive SessEvent where
  | openPage (isAuthenticated : Bool) (uuid : String) (feedbackThrows : Option String)
  | recv (m : Message) (env : Env)
  | complete (trialPopupShown : Bool) (outcome : GenOutcome)
  | dispose (feedbackThrows : Option String)
deriving DecidableEq

/-- One step of the session: messages and disposal only reach a live
panel; a deferred outline completion posts `stopSpinner` (the `finally`)
and runs the `.then` continuation, touching no module state. -/
def step (s : SysState) (ev : SessEvent) : SysState × List Effect :=
  match ev with
  | SessEvent.openPage auth uuid ft => showPlaybookGenerationPage auth uuid ft s
  | SessEvent.recv m env =>
    if s.panelLive then
      let r := handleMessage m env s
      (r.state, r.effects)
    else (s, [])
  | SessEvent.complete trial outcome =>
    (s, generatePlaybookFinish ++ outlineThen trial outcome)
  | SessEvent.dispose ft =>
    if s.panelLive then disposeHandler ft s else (s, [])

/-- Run a list of session events from a state, keeping the final state. -/
def runEvents (evs : List SessEvent) (s : SysState) : SysState :=
  evs.foldl (fun s ev => (step s ev).1) s

/-- Whether an effect is a `feedbackRequest`. -/
def isFeedbackEffect : Effect → Bool
  | Effect.feedback _ _ _ _ => true
  | _ => false

/-- Whether a session event is a call to `showPlaybookGenerationPage`. -/
def isOpenEvent : SessEvent → Bool
  | SessEvent.openPage _ _ _ => true
  | _ => false

end PlaybookGen

namespace Bootstrap

/-!
Model of the failure sites of the CI bootstrap shell script
(`src/unnamed/part_000`).  Each fail-fast check is a function returning
`none` when the script continues and `some code` when it runs `exit code`.
-/

/-- The failure sites at which the bootstrap script exits with an explicit
numeric code. -/
inductive FailureSite where
  | badLogCall
  | unconfiguredGitOutsideCI
  | windowsBuildTools
  | worldWritableFs
  | brokenVirtualenv
  | preinstalledAnsibleOnCI
  | preinstalledAnsibleLintOnCI
  | toolOutsideVenv
deriving DecidableEq

/-- The numeric exit code the script uses at each failure site. -/
def exitCode : FailureSite → Nat
  | FailureSite.badLogCall => 2
  | FailureSite.unconfiguredGitOutsideCI => 40
  | FailureSite.windowsBuildTools => 1
  | FailureSite.worldWritableFs => 100
  | FailureSite.brokenVirtualenv => 99
  | FailureSite.preinstalledAnsibleOnCI => 66
  | FailureSite.preinstalledAnsibleLintOnCI => 67
  | FailureSite.toolOutsideVenv => 68

/-- The `log` function's argument validation: `exit 2` unless called with
exactly two arguments whose first is `notice`, `warning` or `error`. -/
def logCheck (argc : Nat) (level : String) : Option Nat :=
  if argc ≠ 2 then some 2
  else if !(level == "notice" || level == "warning" || level == "error") then some 2
  else none

/-- The git configuration check: when `git config user.email` or
`user.name` is unset, `exit 40` outside CI (`CI` unset or empty); on CI
the script configures defaults instead and continues. -/
def gitConfigCheck (emailConfigured nameConfigured : Bool) (ci : Option String) :
    Option Nat :=
  if emailConfigured && nameConfigured then none
  else if ci.getD "" = "" then some 40
  else none

/-- The platform check: `exit 1` when `OS` is `windows`. -/
def windowsCheck (os : Option String) : Option Nat :=
  if os.getD "" = "windows" then some 1 else none

/-- The world-writable filesystem check: the embedded python exits with
`st_mode & S_IWOTH` (bit 0o002), and a nonzero status makes the script
`exit 100`. -/
def worldWritableCheck (mode : Nat) : Option Nat :=
  if mode.land 2 ≠ 0 then some 100 else none

/-- The virtualenv sanity check: if `which python3` is not the venv's
interpreter, recreate the venv and re-check; if still wrong, `exit 99`. -/
def virtualenvCheck (whichAfterActivate whichAfterRecreate venvPython : String) :
    Option Nat :=
  if whichAfterActivate = venvPython then none
  else if whichAfterRecreate = venvPython then none
  else some 99

/-- The CI isolation check for `ansible`: entered when `command -v
ansible` fails; after `pipx uninstall`, `exit 66` unless `which -a
ansible | wc -l` is exactly 1. -/
def ciAnsibleCheck (commandVFound : Bool) (whichCount : Nat) : Option Nat :=
  if commandVFound then none
  else if whichCount ≠ 1 then some 66
  else none

/-- The CI isolation check for `ansible-lint`, symmetric to the `ansible`
one but exiting with 67. -/
def ciAnsibleLintCheck (commandVFound : Bool) (whichCount : Nat) : Option Nat :=
  if commandVFound then none
  else if whichCount ≠ 1 then some 67
  else none

/-- `$\x7bCMD%%/out*\x7d`: strip the longest suffix matching `/out*`,
i.e. truncate the path at the first occurrence of `/out`. -/
def stripFromOut (path : String) : String :=
  (path.splitOn "/out").headD path

/-- The tool-location check run for `ansible` and `ansible-lint`: the
resolved command path, truncated at `/out`, must equal `pwd -P`,
otherwise `exit 68`. -/
def venvToolCheck (cmdPath pwd : String) : Option Nat :=
  if stripFromOut cmdPath = pwd then none else some 68

end Bootstrap

namespace PlaybookGen

/-- Invariant of the module state maintained by every session step: a
disposed (or never-opened) panel has no `wizardId`, and whenever
`wizardId` is unset so is `currentPage` (`currentPage` is only ever
written by `sendActionEvent`, which requires `wizardId`). -/
def ModuleInv (s : SysState) : Prop :=
  (s.panelLive = false → s.wizardId = none) ∧ (s.wizardId = none → s.currentPage = none)

/-- Invariant holding from a successful `showPlaybookGenerationPage`
call for the UUID it assigned: while the panel is live the module keeps
exactly that identifier, and once the panel is gone the identifier is
cleared. -/
def WizardOpenInv (uuid : String) (s : SysState) : Prop :=
  (s.panelLive = true ∧ s.wizardId = some uuid)
  ∨ (s.panelLive = false ∧ s.wizardId = none)

end PlaybookGen

namespace PlaybookGen

theorem sendActionEvent_of_none (a : WizardGenerationActionType) (tp : Option Nat)
    (ft : Option String) (s : SysState) (hw : s.wizardId = none) :
    sendActionEvent a tp ft s = (s, []) := by
  simp [sendActionEvent, hw]

theorem sendActionEvent_of_some (a : WizardGenerationActionType) (tp : Option Nat)
    (ft : Option String) (s : SysState) (w : String) (hw : s.wizardId = some w) :
    sendActionEvent a tp ft s
      = ({ s with currentPage := tp },
         Effect.feedback a w s.currentPage tp ::
           (match ft with
            | some m => [Effect.showError m]
            | none => [])) := by
  simp [sendActionEvent, hw]

theorem disposeHandler_wizardId (ft : Option String) (s : SysState) :
    (disposeHandler ft s).1.wizardId = none := by
  unfold disposeHandler
  cases hw : s.wizardId with
  | none => rw [sendActionEvent_of_none _ _ _ _ hw]
  | some w => rw [sendActionEvent_of_some _ _ _ _ _ hw]

theorem disposeHandler_panelLive (ft : Option String) (s : SysState) :
    (disposeHandler ft s).1.panelLive = false := by
  unfold disposeHandler
  cases hw : s.wizardId with
  | none => rw [sendActionEvent_of_none _ _ _ _ hw]
  | some w => rw [sendActionEvent_of_some _ _ _ _ _ hw]

theorem disposeHandler_currentPage (ft : Option String) (s : SysState)
    (h : s.wizardId = none → s.currentPage = none) :
    (disposeHandler ft s).1.currentPage = none := by
  unfold disposeHandler
  cases hw : s.wizardId with
  | none => rw [sendActionEvent_of_none _ _ _ _ hw]; exact h hw
  | some w => rw [sendActionEvent_of_some _ _ _ _ _ hw]

/-- C10: when the user is not authenticated, `showPlaybookGenerationPage`
only shows the login error message and returns: the module state is
returned unchanged and the effect trace is exactly that one notification —
no panel creation, no `wizardId` assignment, no action event. -/
theorem C10_unauthenticated_no_side_effects (uuid : String) (ft : Option String)
    (s : SysState) :
    showPlaybookGenerationPage false uuid ft s
      = (s, [Effect.showError "Log in to Ansible Lightspeed to use this feature."]) := rfl

/-- C8: `generatePlaybook` posts `startSpinner` first and `stopSpinner`
last for every outcome of the remote call — success, error result, or a
thrown exception (the `finally` block) — and passes the outcome through. -/
theorem C8_spinner_stopped_on_every_outcome (req : GenRequest) (outcome : GenOutcome) :
    (generatePlaybook req outcome).1.head? = some (Effect.postMessage "startSpinner")
    ∧ (generatePlaybook req outcome).1.getLast? = some (Effect.postMessage "stopSpinner")
    ∧ (generatePlaybook req outcome).2 = outcome := by
  refine ⟨rfl, ?_, rfl⟩
  rfl

/-- C4: the message handler recognizes exactly the five commands
`outline`, `generateCode`, `transition`, `openEditor`, `resetOutline`;
a message with any other command falls through the switch with no state
change, no effect and no pending request. -/
theorem C4_unknown_command_is_no_op (m : Message) (env : Env) (s : SysState)
    (h : m.command ∉ (["outline", "generateCode", "transition", "openEditor",
      "resetOutline"] : List String)) :
    handleMessage m env s = { state := s, effects := [], pending := none } := by
  simp only [List.mem_cons, List.not_mem_nil, or_false, not_or] at h
  obtain ⟨h1, h2, h3, h4, h5⟩ := h
  simp [handleMessage, h1, h2, h3, h4, h5]

theorem C4_unknown_command_is_no_op_witness :
    (("bogus" : String) ∉ (["outline", "generateCode", "transition", "openEditor",
      "resetOutline"] : List String))
    ∧ handleMessage ⟨"bogus", "", none, none, "", none⟩
        ⟨GenOutcome.thrown "", false, false, none⟩ initState
        = { state := initState, effects := [], pending := none } :=
  ⟨by decide,
   C4_unknown_command_is_no_op ⟨"bogus", "", none, none, "", none⟩
     ⟨GenOutcome.thrown "", false, false, none⟩ initState (by decide)⟩

/-- C3 (counterexample): the claim that every generation request started
by the handler is awaited directly is false — an `outline` message with
no outline starts `generatePlaybook(...).then(...)` without awaiting it,
so the handler returns with the request still in flight. -/
theorem C3_outline_request_left_in_flight :
    (handleMessage ⟨"outline", "install nginx", none, none, "gid-1", none⟩
        ⟨GenOutcome.thrown "", false, false, none⟩
        { wizardId := some "w-1", currentPage := some 1, panelLive := true }).pending
      ≠ none := by decide

/-- C3 (amended): only the `generateCode` case awaits its generation
request before the handler returns; the `outline` case with a falsy
outline is exactly the one that leaves a request in flight when the
handler returns. -/
theorem C3_pending_request_characterization (m : Message) (env : Env) (s : SysState) :
    (handleMessage m env s).pending.isSome
      = (decide (m.command = "outline") && !truthy m.outline) := by
  by_cases h1 : m.command = "outline"
  · cases ht : truthy m.outline <;> simp [handleMessage, h1, ht]
  · simp only [handleMessage, if_neg h1]
    split_ifs <;> simp [h1]

/-- C6: a `transition` message received while `wizardId` is defined sends
exactly one feedback request — action `TRANSITION`, `fromPage` the
previous `currentPage`, `toPage` the message's `toPage` — and updates
`currentPage` to that `toPage`. -/
theorem C6_transition_feedback (m : Message) (env : Env) (s : SysState) (w : String)
    (hcmd : m.command = "transition") (hw : s.wizardId = some w) :
    ((handleMessage m env s).effects.filter isFeedbackEffect
        = [Effect.feedback WizardGenerationActionType.TRANSITION w s.currentPage m.toPage])
    ∧ (handleMessage m env s).state.currentPage = m.toPage := by
  have hne1 : m.command ≠ "outline" := by rw [hcmd]; decide
  have hne2 : m.command ≠ "generateCode" := by rw [hcmd]; decide
  rw [handleMessage, if_neg hne1, if_neg hne2, if_pos hcmd,
    sendActionEvent_of_some _ _ _ _ _ hw]
  cases env.feedbackThrows <;> simp [isFeedbackEffect]

theorem C6_transition_feedback_witness :
    ((⟨"transition", "", none, none, "", some 2⟩ : Message).command = "transition")
    ∧ (({ wizardId := some "w-1", currentPage := some 1, panelLive := true } :
        SysState).wizardId = some "w-1")
    ∧ (((handleMessage ⟨"transition", "", none, none, "", some 2⟩
          ⟨GenOutcome.thrown "", false, false, none⟩
          { wizardId := some "w-1", currentPage := some 1, panelLive := true }).effects.filter
            isFeedbackEffect
        = [Effect.feedback WizardGenerationActionType.TRANSITION "w-1" (some 1) (some 2)])
       ∧ (handleMessage ⟨"transition", "", none, none, "", some 2⟩
            ⟨GenOutcome.thrown "", false, false, none⟩
            { wizardId := some "w-1", currentPage := some 1, panelLive := true }).state.currentPage
          = some 2) :=
  ⟨rfl, rfl,
   C6_transition_feedback ⟨"transition", "", none, none, "", some 2⟩
     ⟨GenOutcome.thrown "", false, false, none⟩
     { wizardId := some "w-1", currentPage := some 1, panelLive := true } "w-1" rfl rfl⟩

/-- C9: handling `openEditor` while `wizardId` is defined emits exactly
one feedback event, a `CLOSE_ACCEPT` (with `toPage := undefined`), and
clears `wizardId` before `panel.dispose()`, so the disposal callback's
`CLOSE_CANCEL` attempt is a no-op and no second close event appears in
the trace. -/
theorem C9_open_editor_single_close_event (m : Message) (env : Env) (s : SysState)
    (w : String) (hcmd : m.command = "openEditor") (hw : s.wizardId = some w) :
    ((handleMessage m env s).effects.filter isFeedbackEffect
        = [Effect.feedback WizardGenerationActionType.CLOSE_ACCEPT w s.currentPage none])
    ∧ (handleMessage m env s).state.wizardId = none := by
  have hne1 : m.command ≠ "outline" := by rw [hcmd]; decide
  have hne2 : m.command ≠ "generateCode" := by rw [hcmd]; decide
  have hne3 : m.command ≠ "transition" := by rw [hcmd]; decide
  rw [handleMessage, if_neg hne1, if_neg hne2, if_neg hne3, if_pos hcmd,
    sendActionEvent_of_some _ _ _ _ _ hw]
  cases env.feedbackThrows <;>
    simp [disposeHandler, sendActionEvent_of_none, isFeedbackEffect]

theorem C9_open_editor_single_close_event_witness :
    ((⟨"openEditor", "", none, some "- hosts: all", "", none⟩ : Message).command
        = "openEditor")
    ∧ (({ wizardId := some "w-2", currentPage := some 3, panelLive := true } :
        SysState).wizardId = some "w-2")
    ∧ (((handleMessage ⟨"openEditor", "", none, some "- hosts: all", "", none⟩
          ⟨GenOutcome.thrown "", false, false, none⟩
          { wizardId := some "w-2", currentPage := some 3, panelLive := true }).effects.filter
            isFeedbackEffect
        = [Effect.feedback WizardGenerationActionType.CLOSE_ACCEPT "w-2" (some 3) none])
       ∧ (handleMessage ⟨"openEditor", "", none, some "- hosts: all", "", none⟩
            ⟨GenOutcome.thrown "", false, false, none⟩
            { wizardId := some "w-2", currentPage := some 3, panelLive := true }).state.wizardId
          = none) :=
  ⟨rfl, rfl,
   C9_open_editor_single_close_event ⟨"openEditor", "", none, some "- hosts: all", "", none⟩
     ⟨GenOutcome.thrown "", false, false, none⟩
     { wizardId := some "w-2", currentPage := some 3, panelLive := true } "w-2" rfl rfl⟩

/-- C2 (counterexample): the error of a failed generation is not surfaced
verbatim — for an error result with message `boom` and detail `bad`, the
`generateCode` handler shows the formatted string `boom bad`
(`message`, a space, then `detail`), not the message `boom` itself. -/
theorem C2_error_not_verbatim :
    (Effect.showError "boom bad" ∈
        (handleMessage ⟨"generateCode", "t", none, none, "gid-2", none⟩
          ⟨GenOutcome.failure ⟨some "boom", some "bad"⟩, false, false, none⟩
          { wizardId := some "w-3", currentPage := some 2, panelLive := true }).effects)
    ∧ (Effect.showError "boom" ∉
        (handleMessage ⟨"generateCode", "t", none, none, "gid-2", none⟩
          ⟨GenOutcome.failure ⟨some "boom", some "bad"⟩, false, false, none⟩
          { wizardId := some "w-3", currentPage := some 2, panelLive := true }).effects) := by
  decide

/-- C2 (amended): every error result of the remote generation call is
surfaced as the notification string `message (or UNKNOWN_ERROR), a
space, then detail (or empty)` — in the `generateCode` case directly in
the handler's trace, and in the `outline` case in the deferred `.then`
continuation, exactly when the one-click trial popup does not handle the
error. -/
theorem C2_error_string_surfaced (e : IError) (m : Message) (env : Env) (s : SysState)
    (trial : Bool) (hcmd : m.command = "generateCode") (hpb : truthy m.playbook = false)
    (hout : env.genOutcome = GenOutcome.failure e) :
    (Effect.showError (errorMessageString e) ∈ (handleMessage m env s).effects)
    ∧ (Effect.showError (errorMessageString e) ∈ outlineThen trial (GenOutcome.failure e)
        ↔ trial = false) := by
  constructor
  · have hne1 : m.command ≠ "outline" := by rw [hcmd]; decide
    rw [handleMessage, if_neg hne1, if_pos hcmd]
    simp [handleGenerateCode, hpb, handleGenerateCodeGen, hout, generatePlaybook,
      generatePlaybookStart, generatePlaybookFinish]
  · cases trial <;> simp [outlineThen]

theorem C2_error_string_surfaced_witness :
    ((⟨"generateCode", "t", none, none, "gid-3", none⟩ : Message).command = "generateCode")
    ∧ (truthy (⟨"generateCode", "t", none, none, "gid-3", none⟩ : Message).playbook = false)
    ∧ ((⟨GenOutcome.failure ⟨some "boom", none⟩, false, false, none⟩ : Env).genOutcome
        = GenOutcome.failure ⟨some "boom", none⟩)
    ∧ ((Effect.showError (errorMessageString ⟨some "boom", none⟩) ∈
          (handleMessage ⟨"generateCode", "t", none, none, "gid-3", none⟩
            ⟨GenOutcome.failure ⟨some "boom", none⟩, false, false, none⟩ initState).effects)
       ∧ (Effect.showError (errorMessageString ⟨some "boom", none⟩) ∈
            outlineThen false (GenOutcome.failure ⟨some "boom", none⟩) ↔ false = false)) :=
  ⟨rfl, rfl, rfl,
   C2_error_string_surfaced ⟨some "boom", none⟩ ⟨"generateCode", "t", none, none, "gid-3", none⟩
     ⟨GenOutcome.failure ⟨some "boom", none⟩, false, false, none⟩ initState false rfl rfl rfl⟩

end PlaybookGen

namespace Bootstrap

/-- C7: the bootstrap script's failure sites each exit immediately with
their own explicit nonzero code, and the codes are pairwise distinct:
whenever one of the modelled fail-fast checks fires, the code it exits
with is exactly its site's code (2, 40, 1, 100, 99, 66, 67, 68). -/
theorem C7_distinct_fail_fast_exit_codes :
    (∀ s t : FailureSite, exitCode s = exitCode t ↔ s = t)
    ∧ (∀ s : FailureSite, exitCode s ≠ 0)
    ∧ (∀ a l, logCheck a l = none
        ∨ logCheck a l = some (exitCode FailureSite.badLogCall))
    ∧ (∀ e n c, gitConfigCheck e n c = none
        ∨ gitConfigCheck e n c = some (exitCode FailureSite.unconfiguredGitOutsideCI))
    ∧ (∀ o, windowsCheck o = none
        ∨ windowsCheck o = some (exitCode FailureSite.windowsBuildTools))
    ∧ (∀ mo, worldWritableCheck mo = none
        ∨ worldWritableCheck mo = some (exitCode FailureSite.worldWritableFs))
    ∧ (∀ a b v, virtualenvCheck a b v = none
        ∨ virtualenvCheck a b v = some (exitCode FailureSite.brokenVirtualenv))
    ∧ (∀ f c, ciAnsibleCheck f c = none
        ∨ ciAnsibleCheck f c = some (exitCode FailureSite.preinstalledAnsibleOnCI))
    ∧ (∀ f c, ciAnsibleLintCheck f c = none
        ∨ ciAnsibleLintCheck f c = some (exitCode FailureSite.preinstalledAnsibleLintOnCI))
    ∧ (∀ p w, venvToolCheck p w = none
        ∨ venvToolCheck p w = some (exitCode FailureSite.toolOutsideVenv)) := by
  refine ⟨?_, ?_, ?_, ?_, ?_, ?_, ?_, ?_, ?_, ?_⟩
  · intro s t; cases s <;> cases t <;> simp [exitCode]
  · intro s; cases s <;> simp [exitCode]
  · intro a l; unfold logCheck; split_ifs <;> simp [exitCode]
  · intro e n c; unfold gitConfigCheck; split_ifs <;> simp [exitCode]
  · intro o; unfold windowsCheck; split_ifs <;> simp [exitCode]
  · intro mo; unfold worldWritableCheck; split_ifs <;> simp [exitCode]
  · intro a b v; unfold virtualenvCheck; split_ifs <;> simp [exitCode]
  · intro f c; unfold ciAnsibleCheck; split_ifs <;> simp [exitCode]
  · intro f c; unfold ciAnsibleLintCheck; split_ifs <;> simp [exitCode]
  · intro p w; unfold venvToolCheck; split_ifs <;> simp [exitCode]

end Bootstrap

namespace PlaybookGen

theorem handleMessage_openEditor_state (m : Message) (env : Env) (s : SysState)
    (hcmd : m.command = "openEditor") :
    (handleMessage m env s).state
      = { wizardId := none,
          currentPage := if s.wizardId = none then s.currentPage else none,
          panelLive := false } := by
  have hne1 : m.command ≠ "outline" := by rw [hcmd]; decide
  have hne2 : m.command ≠ "generateCode" := by rw [hcmd]; decide
  have hne3 : m.command ≠ "transition" := by rw [hcmd]; decide
  rw [handleMessage, if_neg hne1, if_neg hne2, if_neg hne3, if_pos hcmd]
  cases hw : s.wizardId with
  | none =>
    rw [sendActionEvent_of_none _ _ _ _ hw]
    simp [disposeHandler, sendActionEvent_of_none, hw]
  | some w =>
    rw [sendActionEvent_of_some _ _ _ _ _ hw]
    simp [disposeHandler, sendActionEvent_of_none, hw]

theorem handleMessage_transition_state (m : Message) (env : Env) (s : SysState)
    (hcmd : m.command = "transition") :
    (handleMessage m env s).state
      = if s.wizardId = none then s else { s with currentPage := m.toPage } := by
  have hne1 : m.command ≠ "outline" := by rw [hcmd]; decide
  have hne2 : m.command ≠ "generateCode" := by rw [hcmd]; decide
  rw [handleMessage, if_neg hne1, if_neg hne2, if_pos hcmd]
  cases hw : s.wizardId with
  | none => rw [sendActionEvent_of_none _ _ _ _ hw]; simp [hw]
  | some w => rw [sendActionEvent_of_some _ _ _ _ _ hw]; simp [hw]

theorem handleMessage_other_state (m : Message) (env : Env) (s : SysState)
    (h3 : m.command ≠ "transition") (h4 : m.command ≠ "openEditor") :
    (handleMessage m env s).state = s := by
  unfold handleMessage
  split_ifs with c1 c2 <;> simp_all

theorem moduleInv_init : ModuleInv initState := ⟨fun _ => rfl, fun _ => rfl⟩

theorem moduleInv_handleMessage (m : Message) (env : Env) (s : SysState)
    (hl : s.panelLive = true) (h : ModuleInv s) :
    ModuleInv (handleMessage m env s).state := by
  obtain ⟨h1, h2⟩ := h
  by_cases c3 : m.command = "transition"
  · rw [handleMessage_transition_state m env s c3]
    split_ifs with hw
    · exact ⟨h1, h2⟩
    · constructor
      · intro hfalse
        simp [hl] at hfalse
      · intro hnone
        exact absurd hnone hw
  · by_cases c4 : m.command = "openEditor"
    · rw [handleMessage_openEditor_state m env s c4]
      refine ⟨fun _ => rfl, fun _ => ?_⟩
      split_ifs with hw
      · exact h2 hw
      · rfl
    · rw [handleMessage_other_state m env s c3 c4]
      exact ⟨h1, h2⟩

theorem moduleInv_step (s : SysState) (ev : SessEvent) (h : ModuleInv s) :
    ModuleInv (step s ev).1 := by
  cases ev with
  | openPage auth uuid ft =>
    cases auth with
    | false => exact h
    | true =>
      constructor <;> intro hx <;>
        simp [step, showPlaybookGenerationPage, sendActionEvent] at hx
  | recv m env =>
    cases hl : s.panelLive with
    | true => simpa [step, hl] using moduleInv_handleMessage m env s hl h
    | false => simpa [step, hl] using h
  | complete trial outcome => exact h
  | dispose ft =>
    cases hl : s.panelLive with
    | true =>
      simp only [step, hl, if_pos]
      exact ⟨fun _ => disposeHandler_wizardId ft s,
        fun _ => disposeHandler_currentPage ft s h.2⟩
    | false => simpa [step, hl] using h

theorem moduleInv_run (evs : List SessEvent) (s : SysState) (h : ModuleInv s) :
    ModuleInv (runEvents evs s) := by
  induction evs generalizing s with
  | nil => exact h
  | cons ev evs ih => exact ih (step s ev).1 (moduleInv_step s ev h)

theorem runEvents_append_single (evs : List SessEvent) (ev : SessEvent) (s : SysState) :
    runEvents (evs ++ [ev]) s = (step (runEvents evs s) ev).1 := by
  unfold runEvents
  rw [List.foldl_append]
  rfl

/-- C1: after the wizard panel is disposed — whether the session ends by
the panel being closed (a `dispose` event) or by an `openEditor` message
— both module-level variables, `wizardId` and `currentPage`, are
`undefined`. -/
theorem C1_disposal_resets_module_state (evs : List SessEvent) (ev : SessEvent)
    (ft : Option String) (m : Message) (env : Env)
    (h : ev = SessEvent.dispose ft
      ∨ (ev = SessEvent.recv m env ∧ m.command = "openEditor")) :
    (runEvents (evs ++ [ev]) initState).wizardId = none
    ∧ (runEvents (evs ++ [ev]) initState).currentPage = none := by
  have hinv : ModuleInv (runEvents evs initState) := moduleInv_run evs initState moduleInv_init
  rw [runEvents_append_single]
  rcases h with hd | ⟨hr, hcmd⟩
  · subst hd
    cases hl : (runEvents evs initState).panelLive with
    | true =>
      simp only [step, hl, if_pos]
      exact ⟨disposeHandler_wizardId ft _, disposeHandler_currentPage ft _ hinv.2⟩
    | false =>
      have hw := hinv.1 hl
      simp only [step, hl]
      exact ⟨by simpa using hw, by simpa using hinv.2 hw⟩
  · subst hr
    cases hl : (runEvents evs initState).panelLive with
    | true =>
      simp only [step, hl, if_pos]
      rw [handleMessage_openEditor_state m env _ hcmd]
      refine ⟨rfl, ?_⟩
      split_ifs with hw
      · exact hinv.2 hw
      · rfl
    | false =>
      have hw := hinv.1 hl
      simp only [step, hl]
      exact ⟨by simpa using hw, by simpa using hinv.2 hw⟩

theorem C1_disposal_resets_module_state_witness :
    ((SessEvent.dispose none)
        = SessEvent.dispose none
      ∨ ((SessEvent.dispose none) = SessEvent.recv ⟨"openEditor", "", none, none, "", none⟩
            ⟨GenOutcome.thrown "", false, false, none⟩
          ∧ (⟨"openEditor", "", none, none, "", none⟩ : Message).command = "openEditor"))
    ∧ ((runEvents ([SessEvent.openPage true "w-4" none] ++ [SessEvent.dispose none])
          initState).wizardId = none
       ∧ (runEvents ([SessEvent.openPage true "w-4" none] ++ [SessEvent.dispose none])
          initState).currentPage = none) :=
  ⟨Or.inl rfl,
   C1_disposal_resets_module_state [SessEvent.openPage true "w-4" none]
     (SessEvent.dispose none) none ⟨"openEditor", "", none, none, "", none⟩
     ⟨GenOutcome.thrown "", false, false, none⟩ (Or.inl rfl)⟩

theorem wizardOpenInv_handleMessage (uuid : String) (m : Message) (env : Env)
    (s : SysState) (hl : s.panelLive = true) (h : WizardOpenInv uuid s) :
    WizardOpenInv uuid (handleMessage m env s).state := by
  by_cases c3 : m.command = "transition"
  · rw [handleMessage_transition_state m env s c3]
    split_ifs with hw
    · exact h
    · rcases h with ⟨-, hid⟩ | ⟨hdead, -⟩
      · exact Or.inl ⟨hl, hid⟩
      · rw [hl] at hdead; cases hdead
  · by_cases c4 : m.command = "openEditor"
    · rw [handleMessage_openEditor_state m env s c4]
      exact Or.inr ⟨rfl, rfl⟩
    · rw [handleMessage_other_state m env s c3 c4]
      exact h

theorem wizardOpenInv_step (uuid : String) (s : SysState) (ev : SessEvent)
    (hev : isOpenEvent ev = false) (h : WizardOpenInv uuid s) :
    WizardOpenInv uuid (step s ev).1 := by
  cases ev with
  | openPage auth u ft => cases hev
  | recv m env =>
    cases hl : s.panelLive with
    | true => simpa [step, hl] using wizardOpenInv_handleMessage uuid m env s hl h
    | false => simpa [step, hl] using h
  | complete trial outcome => exact h
  | dispose ft =>
    cases hl : s.panelLive with
    | true =>
      simp only [step, hl, if_pos]
      exact Or.inr ⟨disposeHandler_panelLive ft s, disposeHandler_wizardId ft s⟩
    | false => simpa [step, hl] using h

theorem wizardOpenInv_run (uuid : String) (evs : List SessEvent) (s : SysState)
    (hno : ∀ e ∈ evs, isOpenEvent e = false) (h : WizardOpenInv uuid s) :
    WizardOpenInv uuid (runEvents evs s) := by
  induction evs generalizing s with
  | nil => exact h
  | cons ev evs ih =>
    exact ih (step s ev).1 (fun e he => hno e (List.mem_cons_of_mem ev he))
      (wizardOpenInv_step uuid s ev (hno ev (List.mem_cons_self ev evs)) h)

/-- C5: the wizard session identifier lives exactly as long as the
wizard: opening the page for an authenticated user assigns the freshly
generated UUID to `wizardId`, it keeps exactly that value while the
panel is live, and it is `undefined` once the wizard is closed
(`openEditor` accept or panel disposal); the session events after the
open are arbitrary as long as no second wizard is opened. -/
theorem C5_wizard_id_set_between_open_and_close (uuid : String) (ft : Option String)
    (evs : List SessEvent) (hno : ∀ e ∈ evs, isOpenEvent e = false) :
    ((runEvents [SessEvent.openPage true uuid ft] initState).wizardId = some uuid
      ∧ (runEvents [SessEvent.openPage true uuid ft] initState).panelLive = true)
    ∧ ((runEvents (SessEvent.openPage true uuid ft :: evs) initState).panelLive = true →
        (runEvents (SessEvent.openPage true uuid ft :: evs) initState).wizardId = some uuid)
    ∧ ((runEvents (SessEvent.openPage true uuid ft :: evs) initState).panelLive = false →
        (runEvents (SessEvent.openPage true uuid ft :: evs) initState).wizardId = none) := by
  have hs0 : (step initState (SessEvent.openPage true uuid ft)).1
      = { wizardId := some uuid, currentPage := some 1, panelLive := true } := rfl
  have hcons : runEvents (SessEvent.openPage true uuid ft :: evs) initState
      = runEvents evs (step initState (SessEvent.openPage true uuid ft)).1 := rfl
  have hinv : WizardOpenInv uuid
      (runEvents (SessEvent.openPage true uuid ft :: evs) initState) := by
    rw [hcons, hs0]
    exact wizardOpenInv_run uuid evs _ hno (Or.inl ⟨rfl, rfl⟩)
  refine ⟨⟨rfl, rfl⟩, fun hlive => ?_, fun hdead => ?_⟩
  · rcases hinv with ⟨-, hid⟩ | ⟨hd, -⟩
    · exact hid
    · rw [hlive] at hd; cases hd
  · rcases hinv with ⟨hl, -⟩ | ⟨-, hid⟩
    · rw [hdead] at hl; cases hl
    · exact hid

theorem C5_wizard_id_set_between_open_and_close_witness :
    (∀ e ∈ ([SessEvent.recv ⟨"transition", "", none, none, "", some 2⟩
        ⟨GenOutcome.thrown "", false, false, none⟩, SessEvent.dispose none] : List SessEvent),
      isOpenEvent e = false)
    ∧ (((runEvents [SessEvent.openPage true "w-5" none] initState).wizardId = some "w-5"
        ∧ (runEvents [SessEvent.openPage true "w-5" none] initState).panelLive = true)
       ∧ ((runEvents (SessEvent.openPage true "w-5" none ::
            [SessEvent.recv ⟨"transition", "", none, none, "", some 2⟩
              ⟨GenOutcome.thrown "", false, false, none⟩, SessEvent.dispose none])
            initState).panelLive = true →
          (runEvents (SessEvent.openPage true "w-5" none ::
            [SessEvent.recv ⟨"transition", "", none, none, "", some 2⟩
              ⟨GenOutcome.thrown "", false, false, none⟩, SessEvent.dispose none])
            initState).wizardId = some "w-5")
       ∧ ((runEvents (SessEvent.openPage true "w-5" none ::
            [SessEvent.recv ⟨"transition", "", none, none, "", some 2⟩
              ⟨GenOutcome.thrown "", false, false, none⟩, SessEvent.dispose none])
            initState).panelLive = false →
          (runEvents (SessEvent.openPage true "w-5" none ::
            [SessEvent.recv ⟨"transition", "", none, none, "", some 2⟩
              ⟨GenOutcome.thrown "", false, false, none⟩, SessEvent.dispose none])
            initState).wizardId = none)) :=
  ⟨by decide,
   C5_wizard_id_set_between_open_and_close "w-5" none
     [SessEvent.recv ⟨"transition", "", none, none, "", some 2⟩
       ⟨GenOutcome.thrown "", false, false, none⟩, SessEvent.dispose none] (by decide)⟩

end PlaybookGen
